import Mathlib

/-!
Verification of the dynamic schema-driven CRUD and archival orchestration
layer of a library-management admin console (`app/crud.py`, `app/database.py`).

The Python functions are shallowly embedded: database interaction and
subprocess results are passed in as explicit oracle parameters
(`ProcResult`, `Except`-valued fetch results, ...), and everything the
functions actually compute — string classification of `pg_restore` stderr,
sort-column inference, SET/WHERE-clause assembly, dependency guards,
per-table archival workflow — is translated directly from the source.
-/

/-! ### String helpers (models of Python `str` operations on `List Char`) -/

/-- Python `str.lower`, character-wise. -/
def lowerStr (s : List Char) : List Char := s.map Char.toLower

/-- Boolean prefix test on character lists (`str.startswith`). -/
def isPrefixB : List Char → List Char → Bool
  | [], _ => true
  | _ :: _, [] => false
  | a :: as, b :: bs => a == b && isPrefixB as bs

/-- Boolean substring test (`needle in haystack` for Python strings). -/
def containsB (needle : List Char) : List Char → Bool
  | [] => needle.isEmpty
  | c :: rest => isPrefixB needle (c :: rest) || containsB needle rest

/-- Python `str.strip()` (whitespace from both ends). -/
def stripStr (s : List Char) : List Char :=
  ((s.dropWhile Char.isWhitespace).reverse.dropWhile Char.isWhitespace).reverse

/-- Python `str.split("\n")`. -/
def splitNl : List Char → List (List Char)
  | [] => [[]]
  | c :: rest =>
    if c = '\n' then [] :: splitNl rest
    else
      match splitNl rest with
      | [] => [[c]]
      | l :: ls => (c :: l) :: ls

/-- Python `x or y` for strings: `y` when `x` is empty, else `x`. -/
def pyOrStr (x y : List Char) : List Char := if x.isEmpty then y else x

/-- `" ".join(cmd)` for a subprocess argument list. -/
def joinSpace (cmd : List (List Char)) : List Char := List.intercalate [' '] cmd

/-- `"\n".join(lines)`. -/
def joinNl (lines : List (List Char)) : List Char := List.intercalate ['\n'] lines

/-! ### `CRUD.restore_backup` (crud.py 563-689)

The two subprocess invocations (`psql` schema clean, `pg_restore`) are
oracles: the caller supplies each one's `ProcResult`.  The model returns
the result dictionary together with the list of steps actually invoked. -/

/-- Result of a `subprocess.run` call. -/
structure ProcResult where
  returncode : Int
  stdout : List Char
  stderr : List Char

/-- The two external process steps of `restore_backup`. -/
inductive RestoreStep
  | cleanSchema
  | runRestore
deriving DecidableEq

/-- The fields of the dictionary `restore_backup` returns that the claims
are about. -/
structure RestoreResult where
  success : Bool
  error : Option (List Char)
  command : Option (List Char)
  warnings : List (List Char)

/-- crud.py 632: the stripped non-empty lines of `pg_restore`'s stderr. -/
def stderrLines (stderr : List Char) : List (List Char) :=
  ((splitNl stderr).map stripStr).filter (fun l => !l.isEmpty)

def ttTok : List Char := "transaction_timeout".data
def unrecTok : List Char := "unrecognized configuration parameter".data
def cmdWasTok : List Char := "command was:".data
def warnTok : List Char := "warning:".data
def errTok : List Char := "error:".data

/-- crud.py 636-653: the per-line classification loop, producing the
`warnings` and `errors` lists in order. -/
def classifyLines : List (List Char) → List (List Char) × List (List Char)
  | [] => ([], [])
  | line :: rest =>
    let (ws, es) := classifyLines rest
    let lower := lowerStr line
    if containsB ttTok lower && containsB unrecTok lower then (line :: ws, es)
    else if isPrefixB cmdWasTok lower && containsB ttTok lower then (line :: ws, es)
    else if containsB warnTok lower then (line :: ws, es)
    else if containsB errTok lower then (ws, line :: es)
    else (ws, es)

/-- The warning side of the classification, as one boolean. -/
def lineIsWarning (line : List Char) : Bool :=
  let lower := lowerStr line
  (containsB ttTok lower && containsB unrecTok lower)
    || (isPrefixB cmdWasTok lower && containsB ttTok lower)
    || containsB warnTok lower

/-- The error side of the classification: reached only past the warning
branches. -/
def lineIsError (line : List Char) : Bool :=
  !lineIsWarning line && containsB errTok (lowerStr line)

/-- crud.py 594-596: the `-c` argument of the schema-clean `psql` call. -/
def cleanSchemaSql (dbUser : List Char) : List Char :=
  "DROP SCHEMA IF EXISTS public CASCADE; CREATE SCHEMA public; GRANT ALL ON SCHEMA public TO \"".data
    ++ dbUser ++ "\"; GRANT ALL ON SCHEMA public TO public;".data

/-- crud.py 587-596: the `psql` command line. -/
def psqlCmd (dbHost dbPort dbUser dbName : List Char) : List (List Char) :=
  ["psql".data, "-h".data, dbHost, "-p".data, dbPort, "-U".data, dbUser,
   "-d".data, dbName, "-v".data, "ON_ERROR_STOP=1".data, "-c".data,
   cleanSchemaSql dbUser]

/-- crud.py 613-623: the `pg_restore` command line. -/
def restoreCmd (dbHost dbPort dbUser dbName backupPath : List Char) : List (List Char) :=
  ["pg_restore".data, "-h".data, dbHost, "-p".data, dbPort, "-U".data, dbUser,
   "-d".data, dbName, "-v".data, "--no-owner".data, "--no-privileges".data,
   backupPath]

def fileMissingMsg (backupPath : List Char) : List Char :=
  "Файл бэкапа не существует: ".data ++ backupPath

def cleanErrPrefix : List Char :=
  "Ошибка подготовки БД (очистка схемы public): ".data

def cleanErrDefault : List Char :=
  "Неизвестная ошибка очистки схемы".data

/-- crud.py 563-670: `CRUD.restore_backup`.  `fileExistsB` is
`os.path.exists(backup_path)`; `psqlRes` and `restoreRes` are the results
the two subprocesses would produce (the second is consulted only if the
second step runs).  Exceptions around a missing `psql`/`pg_restore` binary
are outside this model. -/
def restore_backup (backupPath dbHost dbPort dbUser dbName : List Char)
    (fileExistsB : Bool) (psqlRes restoreRes : ProcResult) :
    RestoreResult × List RestoreStep :=
  if !fileExistsB then
    ({ success := false, error := some (fileMissingMsg backupPath),
       command := none, warnings := [] }, [])
  else if psqlRes.returncode ≠ 0 then
    let errText := pyOrStr (stripStr psqlRes.stderr)
      (pyOrStr (stripStr psqlRes.stdout) cleanErrDefault)
    ({ success := false, error := some (cleanErrPrefix ++ errText),
       command := some (joinSpace (psqlCmd dbHost dbPort dbUser dbName)),
       warnings := [] }, [RestoreStep.cleanSchema])
  else
    let (ws, es) := classifyLines (stderrLines restoreRes.stderr)
    if restoreRes.returncode ≠ 0 ∧ es ≠ [] then
      ({ success := false, error := some (joinNl es),
         command := some (joinSpace (restoreCmd dbHost dbPort dbUser dbName backupPath)),
         warnings := ws }, [RestoreStep.cleanSchema, RestoreStep.runRestore])
    else
      ({ success := true, error := none, command := none, warnings := ws },
       [RestoreStep.cleanSchema, RestoreStep.runRestore])

/-! ### `CRUD.get_primary_key` (crud.py 49-66)

The catalog query's outcome is the oracle: `.error` when anything in the
`try` block raises, `.ok rows` with the list of primary-key column rows
otherwise (`fetchone` takes the head). -/

def get_primary_key (dbOutcome : Except String (List String)) : String :=
  match dbOutcome with
  | .error _ => "id"
  | .ok rows =>
    match rows.head? with
    | some c => c
    | none => "id"

/-! ### Sort-column inference in `CRUD.get_table_data` (crud.py 192-204) -/

/-- Python `col.endswith('_id')`. -/
def endsWithId (c : String) : Bool :=
  isPrefixB "_id".data.reverse c.data.reverse

/-- crud.py 197-200: the `for col in columns` loop with `break`, starting
from the fallback value `"ctid"`. -/
def findIdColumn : List String → String
  | [] => "ctid"
  | c :: rest => if endsWithId c then c else findIdColumn rest

/-- crud.py 194-204: the inferred `sort_column` for a table whose catalog
columns (in ordinal position) are `cols`. -/
def pick_sort_column (cols : List String) : String :=
  let s := findIdColumn cols
  if s == "ctid" && !cols.isEmpty then cols.headD "ctid" else s

/-! ### Connection usage (database.py 11-41, crud.py 26-47 and 68-98)

Each call of `Database.get_connection()` is an `acquire` event; the only
`conn.close()` in the repository is the `finally` of
`Database.get_connection_context` (database.py 39-41), which is a
`release` event. -/

inductive ConnEvent
  | acquire
  | release
deriving DecidableEq

/-- database.py 27-41: `get_connection_context` acquires a connection, runs
the body, and closes the connection in `finally`. -/
def ctxTrace (bodyTrace : List ConnEvent) : List ConnEvent :=
  ConnEvent.acquire :: bodyTrace ++ [ConnEvent.release]

/-- crud.py 26-47: `get_table_columns` uses one plain `get_connection()`. -/
def get_table_columns_trace : List ConnEvent := [ConnEvent.acquire]

/-- crud.py 68-98: `get_record_by_id` opens a connection, and when the
record is found (line 92-94) additionally calls `CRUD.get_table_columns`,
which opens its own connection. -/
def get_record_by_id_trace (found : Bool) : List ConnEvent :=
  ConnEvent.acquire :: (if found then get_table_columns_trace else [])

/-- crud.py 9-24: `get_tables` runs entirely inside
`get_connection_context`. -/
def get_tables_trace : List ConnEvent := ctxTrace []

/-- crud.py 100-141: `update_record` runs entirely inside
`get_connection_context` and opens no nested connection. -/
def update_record_trace : List ConnEvent := ctxTrace []

/-- crud.py 143-170: `delete_record` likewise. -/
def delete_record_trace : List ConnEvent := ctxTrace []

/-- crud.py 172-236: `get_table_data` likewise. -/
def get_table_data_trace : List ConnEvent := ctxTrace []

/-! ### `CRUD.get_table_columns` (crud.py 26-47) -/

/-- One row of the `information_schema.columns` query (crud.py 31-37),
already in `ORDER BY ordinal_position` order. -/
structure CatalogColumn where
  column_name : String
  data_type : String
  is_nullable : String
  column_default : Option String
deriving DecidableEq

/-- The response shape built at crud.py 39-47. -/
structure ColumnInfo where
  name : String
  type : String
  nullable : Bool
  default : Option String
deriving DecidableEq

/-- crud.py 26-47: `get_table_columns`, over the catalog rows the query
returns. -/
def get_table_columns (rows : List CatalogColumn) : List ColumnInfo :=
  rows.map (fun col =>
    { name := col.column_name, type := col.data_type,
      nullable := col.is_nullable == "YES", default := col.column_default })

/-! ### Values and `CRUD.execute_sql` (crud.py 238-291) -/

/-- Model of the Python values flowing through rows and request data:
`None`, numbers, strings, booleans, and `datetime`/`date` objects carried
by their `isoformat()` string. -/
inductive PgValue
  | vnull
  | vint (n : Int)
  | vstr (s : String)
  | vbool (b : Bool)
  | vdatetime (iso : String)
  | vdate (iso : String)
deriving DecidableEq

/-- crud.py 257-263: `datetime` and `date` cell values are replaced by
their `isoformat()` strings; everything else passes through. -/
def convertValue : PgValue → PgValue
  | PgValue.vdatetime iso => PgValue.vstr iso
  | PgValue.vdate iso => PgValue.vstr iso
  | v => v

/-- What `cur.execute` did: raised, produced a result set
(`cur.description` non-null) of rows under column names, or ran a
statement with only an affected-row count. -/
inductive ExecOutcome
  | resultSet (cols : List String) (rows : List (List PgValue)) (rowcount : Int)
  | command (rowcount : Int)

/-- The transaction action `execute_sql` performs before returning. -/
inductive TxnAction
  | commit
  | rollback
  | noAction
deriving DecidableEq

/-- The fields of `execute_sql`'s result dictionary the claim is about.
`elapsed` stands for the measured `execution_time`. -/
structure SqlResult where
  success : Bool
  data : Option (List (List (String × PgValue)))
  columns : Option (List String)
  rowcount : Option Int
  error : Option String
  elapsed : Nat

/-- crud.py 238-291: `CRUD.execute_sql`.  The query text is passed to the
engine unchanged, so only the engine's outcome appears here; `elapsed` is
the wall-clock measurement, opaque to the logic. -/
def execute_sql (outcome : Except String ExecOutcome) (elapsed : Nat) :
    SqlResult × TxnAction :=
  match outcome with
  | .error e =>
    ({ success := false, data := none, columns := none, rowcount := none,
       error := some e, elapsed := elapsed }, TxnAction.rollback)
  | .ok (ExecOutcome.resultSet cols rows rc) =>
    ({ success := true,
       data := some (rows.map (fun r => cols.zip (r.map convertValue))),
       columns := some cols, rowcount := some rc, error := none,
       elapsed := elapsed }, TxnAction.noAction)
  | .ok (ExecOutcome.command rc) =>
    ({ success := true, data := none, columns := none, rowcount := some rc,
       error := none, elapsed := elapsed }, TxnAction.commit)

/-! ### `CRUD.delete_data` (crud.py 397-485) -/

/-- The four tables with a dependency guard (crud.py 404). -/
def guardedTables : List String := ["authors", "genres", "publishers", "readers"]

/-- The key under which the dependency count is reported (crud.py 414,
422, 429, 436). -/
def depKey (table : String) : String :=
  if table = "readers" then "active_loans" else "books"

/-- The fields of `delete_data`'s result the claim is about. -/
structure DeleteResult where
  success : Bool
  dependencies : Option (List (String × Nat))
  error : Option String

/-- crud.py 397-485: `CRUD.delete_data` up to the point the `DELETE` is
(or is not) issued.  `depCount` is the count the dependency query returns
for a guarded table; the second component records whether the `DELETE`
statement was executed.  The post-`DELETE` bookkeeping and the `except`
path are outside the claim. -/
def delete_data (table : String) (depCount : Nat) (condKeys : List String) :
    DeleteResult × Bool :=
  if table ∈ guardedTables ∧ 0 < depCount then
    ({ success := false,
       dependencies := some [(depKey table, depCount)],
       error := some "Невозможно удалить запись из-за наличия зависимых данных" },
     false)
  else if condKeys = [] then
    ({ success := false, dependencies := none,
       error := some "Не указаны условия для удаления" }, false)
  else
    ({ success := true, dependencies := none, error := none }, true)

/-! ### `CRUD.update_record` (crud.py 100-141) -/

/-- crud.py 126: keep a `data` item when its key is not the primary-key
column and its value is neither `""` nor `None`. -/
def updatableItem (pk : String) (kv : String × PgValue) : Bool :=
  !(kv.1 == pk) && !(kv.2 == PgValue.vstr "") && !(kv.2 == PgValue.vnull)

/-- The fields of `update_record`'s result the claim is about. -/
structure UpdateResult where
  success : Bool
  error : Option String

/-- crud.py 116-119 (and identically 83-87, 158-162): the primary-key
column is the fetched catalog row when there is one, else the default
`'id'`. -/
def pkOf (pkFetch : Option String) : String :=
  match pkFetch with
  | some c => c
  | none => "id"

/-- crud.py 100-141: `CRUD.update_record`.  `pkFetch` is what the
primary-key catalog query's `fetchone` returned; `data` is the request
body in dict order.  The second component is the list of columns in the
SET clause of the executed `UPDATE`, or `none` when no `UPDATE` ran. -/
def update_record (pkFetch : Option String) (data : List (String × PgValue)) :
    UpdateResult × Option (List String) :=
  let pk := pkOf pkFetch
  let kept := data.filter (updatableItem pk)
  if kept.isEmpty then
    ({ success := false, error := some "Нет данных для обновления" }, none)
  else
    ({ success := true, error := none }, some (kept.map Prod.fst))

/-! ### `CRUD.archive_tables` (crud.py 691-789)

Per table the workflow is: read the rows, write the Excel export, write
the JSON export, run the per-table `pg_dump` (with `check=True`), and only
then delete the rows and commit.  `ArchEnv` says which of those steps
succeed for a table; `rows` maps each table name to its current row
count. -/

structure ArchEnv where
  readOk : Bool
  excelOk : Bool
  jsonOk : Bool
  dumpOk : Bool
  deleteOk : Bool

/-- One entry of `archive_report["tables"]`: either the success record
(crud.py 767-773) or the error record (crud.py 778-781). -/
inductive ArchEntry
  | ok (name : String) (rowsArchived : Nat)
  | err (name : String)
deriving DecidableEq

/-- The table name an entry reports. -/
def entryName : ArchEntry → String
  | ArchEntry.ok n _ => n
  | ArchEntry.err n => n

/-- crud.py 749-762: the deletions run once table `t`'s turn reaches the
purge step: the table itself, plus the dependent rows cleared first for
`books` and `readers`. -/
def purgeEffect (t : String) (rows : String → Nat) : String → Nat :=
  fun x =>
    if x = t then 0
    else if t = "books" ∧ (x = "book_loans" ∨ x = "book_authors" ∨ x = "book_genres") then 0
    else if t = "readers" ∧ x = "book_loans" then 0
    else rows x

/-- crud.py 712-781: one iteration of the `for table in tables` loop.  An
exception at any step lands in the `except` arm (error entry, no state
change); a failure inside the delete block rolls the transaction back, so
it also leaves the rows unchanged. -/
def archiveStep (rows : String → Nat) (t : String) (e : ArchEnv) :
    (String → Nat) × ArchEntry :=
  if !e.readOk then (rows, ArchEntry.err t)
  else if !e.excelOk then (rows, ArchEntry.err t)
  else if !e.jsonOk then (rows, ArchEntry.err t)
  else if !e.dumpOk then (rows, ArchEntry.err t)
  else if !e.deleteOk then (rows, ArchEntry.err t)
  else (purgeEffect t rows, ArchEntry.ok t (rows t))

/-- crud.py 712-781: the whole loop, threading the database state and
collecting the report entries in order. -/
def archive_tables (rows : String → Nat) :
    List (String × ArchEnv) → (String → Nat) × List ArchEntry
  | [] => (rows, [])
  | (t, e) :: rest =>
    let step := archiveStep rows t e
    let tail := archive_tables step.1 rest
    (tail.1, step.2 :: tail.2)

/-- A `pg_restore` stderr line of the kind emitted after an
`unrecognized configuration parameter` error: it starts with
`command was:`, mentions `transaction_timeout`, and also contains
`ERROR:`. -/
def cmdWasErrLine : List Char :=
  "command was: SET transaction_timeout = 0; ERROR: cannot set parameter".data

/-! ### Sanity lemmas for the classification -/

theorem classifyLines_eq (ls : List (List Char)) :
    classifyLines ls = (ls.filter lineIsWarning, ls.filter lineIsError) := by
  induction ls with
  | nil => rfl
  | cons line rest ih =>
    simp only [classifyLines, ih, List.filter_cons]
    by_cases h1 : (containsB ttTok (lowerStr line)
        && containsB unrecTok (lowerStr line)) = true
    · simp [lineIsWarning, lineIsError, h1]
    · by_cases h2 : (isPrefixB cmdWasTok (lowerStr line)
          && containsB ttTok (lowerStr line)) = true
      · simp [lineIsWarning, lineIsError, h1, h2]
      · by_cases h3 : containsB warnTok (lowerStr line) = true
        · simp [lineIsWarning, lineIsError, h1, h2, h3]
        · by_cases h4 : containsB errTok (lowerStr line) = true
          · simp [lineIsWarning, lineIsError, h1, h2, h3, h4]
          · simp [lineIsWarning, lineIsError, h1, h2, h3, h4]

theorem lineIsWarning_cmdWasErrLine : lineIsWarning cmdWasErrLine = true := by decide

theorem lineIsError_cmdWasErrLine : lineIsError cmdWasErrLine = false := by decide

/-- C1 (counterexample): the claim's classification rule "a line containing
`error:` is an error" fails on the code.  With a successful schema clean and
`pg_restore` exiting with return code 1 whose single stderr line starts with
`command was:` and mentions `transaction_timeout` while also containing
`ERROR:`, the claim predicts at least one error line and hence failure, but
`restore_backup` classifies the line as a warning (crud.py 643-644 fires
before the `error:` check at 651) and reports success. -/
theorem restore_backup_error_line_counterexample :
    containsB errTok (lowerStr cmdWasErrLine) = true
    ∧ stderrLines cmdWasErrLine = [cmdWasErrLine]
    ∧ (1 : Int) ≠ 0
    ∧ (restore_backup "b.backup".data "localhost".data "5432".data "admin".data
        "library_management".data true ⟨0, [], []⟩ ⟨1, [], cmdWasErrLine⟩).1.success = true
    ∧ (restore_backup "b.backup".data "localhost".data "5432".data "admin".data
        "library_management".data true ⟨0, [], []⟩ ⟨1, [], cmdWasErrLine⟩).1.warnings
      = [cmdWasErrLine] := by
  refine ⟨by decide, by decide, by decide, ?_, ?_⟩ <;> rfl

/-- C1 (amended): when the clean step succeeded, `restore_backup`
classifies each stripped non-empty stderr line of `pg_restore`: a line
mentioning both `transaction_timeout` and `unrecognized configuration
parameter`, or starting with `command was:` and mentioning
`transaction_timeout`, or containing `warning:` (all case-insensitively)
is a warning; a line not classified as a warning and containing `error:`
is an error.  The call reports failure if and only if `pg_restore`'s
return code is nonzero and at least one line was classified as an error,
carrying those error lines; otherwise it reports success.  Either way it
returns the collected warnings. -/
theorem restore_backup_stderr_classification
    (backupPath dbHost dbPort dbUser dbName : List Char)
    (psqlRes : ProcResult) (hpsql : psqlRes.returncode = 0)
    (rc : Int) (restoreOut restoreErr : List Char) :
    ((restore_backup backupPath dbHost dbPort dbUser dbName true psqlRes
        ⟨rc, restoreOut, restoreErr⟩).1.success = false
      ↔ rc ≠ 0 ∧ (stderrLines restoreErr).filter lineIsError ≠ [])
    ∧ (restore_backup backupPath dbHost dbPort dbUser dbName true psqlRes
        ⟨rc, restoreOut, restoreErr⟩).1.warnings
      = (stderrLines restoreErr).filter lineIsWarning
    ∧ ((restore_backup backupPath dbHost dbPort dbUser dbName true psqlRes
        ⟨rc, restoreOut, restoreErr⟩).1.success = false →
        (restore_backup backupPath dbHost dbPort dbUser dbName true psqlRes
          ⟨rc, restoreOut, restoreErr⟩).1.error
          = some (joinNl ((stderrLines restoreErr).filter lineIsError))) := by
  have hne : ¬ psqlRes.returncode ≠ 0 := by simp [hpsql]
  by_cases hc : ¬rc = 0 ∧ ∃ x ∈ stderrLines restoreErr, lineIsError x = true
  · simp [restore_backup, hne, classifyLines_eq, hc]
  · simp [restore_backup, hne, classifyLines_eq, hc]

/-- Instantiation of `restore_backup_stderr_classification`: a plain
`error:` line under return code 1 makes the restore report failure. -/
theorem restore_backup_stderr_classification_witness :
    ((restore_backup "b.backup".data "localhost".data "5432".data "admin".data
        "library_management".data true ⟨0, [], []⟩
        ⟨1, [], "pg_restore: error: boom".data⟩).1.success = false
      ↔ (1 : Int) ≠ 0
        ∧ (stderrLines "pg_restore: error: boom".data).filter lineIsError ≠ []) :=
  (restore_backup_stderr_classification "b.backup".data "localhost".data
    "5432".data "admin".data "library_management".data ⟨0, [], []⟩ rfl
    1 [] "pg_restore: error: boom".data).1

/-- C2: when the schema-clean `psql` step exits with a nonzero return
code, the `pg_restore` step is never invoked; the operation returns
failure whose error text wraps the clean step's stderr (or stdout, or the
default message) and whose `command` field is the joined `psql` command
line. -/
theorem restore_backup_clean_failure_blocks_restore
    (backupPath dbHost dbPort dbUser dbName : List Char)
    (psqlRes restoreRes : ProcResult) (h : psqlRes.returncode ≠ 0) :
    (restore_backup backupPath dbHost dbPort dbUser dbName true psqlRes restoreRes).2
        = [RestoreStep.cleanSchema]
    ∧ RestoreStep.runRestore
        ∉ (restore_backup backupPath dbHost dbPort dbUser dbName true psqlRes restoreRes).2
    ∧ (restore_backup backupPath dbHost dbPort dbUser dbName true psqlRes restoreRes).1.success
        = false
    ∧ (restore_backup backupPath dbHost dbPort dbUser dbName true psqlRes restoreRes).1.error
        = some (cleanErrPrefix ++ pyOrStr (stripStr psqlRes.stderr)
            (pyOrStr (stripStr psqlRes.stdout) cleanErrDefault))
    ∧ (restore_backup backupPath dbHost dbPort dbUser dbName true psqlRes restoreRes).1.command
        = some (joinSpace (psqlCmd dbHost dbPort dbUser dbName)) := by
  refine ⟨?_, ?_, ?_, ?_, ?_⟩ <;> simp [restore_backup, h]

/-- Instantiation of `restore_backup_clean_failure_blocks_restore` at a
concrete failing clean step. -/
theorem restore_backup_clean_failure_blocks_restore_witness :
    (restore_backup "b.backup".data "localhost".data "5432".data "admin".data
        "library_management".data true ⟨1, [], "psql: fatal".data⟩ ⟨0, [], []⟩).2
      = [RestoreStep.cleanSchema] :=
  (restore_backup_clean_failure_blocks_restore "b.backup".data "localhost".data
    "5432".data "admin".data "library_management".data
    ⟨1, [], "psql: fatal".data⟩ ⟨0, [], []⟩ (by decide)).1

/-- C3: per table, `archive_tables` purges rows only after the read, the
Excel export, the JSON export and the `pg_dump` backup all succeeded: if
any of them fails, the database state is returned unchanged and the table
gets an error entry; whenever the state did change, all four steps had
succeeded and the table got a success entry.  Every table in the list,
including those after a failed one, receives exactly one report entry, in
order. -/
theorem archive_tables_archive_then_purge :
    (∀ (rows : String → Nat) (t : String) (e : ArchEnv),
        (e.readOk = false ∨ e.excelOk = false ∨ e.jsonOk = false ∨ e.dumpOk = false) →
          archiveStep rows t e = (rows, ArchEntry.err t))
    ∧ (∀ (rows : String → Nat) (t : String) (e : ArchEnv),
        (archiveStep rows t e).1 ≠ rows →
          e.readOk = true ∧ e.excelOk = true ∧ e.jsonOk = true ∧ e.dumpOk = true
            ∧ (archiveStep rows t e).2 = ArchEntry.ok t (rows t))
    ∧ (∀ (rows : String → Nat) (tbls : List (String × ArchEnv)),
        ((archive_tables rows tbls).2).map entryName = tbls.map Prod.fst) := by
  refine ⟨?_, ?_, ?_⟩
  · rintro rows t ⟨r, x, j, d, del⟩ h
    cases r <;> cases x <;> cases j <;> cases d <;> cases del <;>
      simp_all [archiveStep]
  · rintro rows t ⟨r, x, j, d, del⟩ h
    cases r <;> cases x <;> cases j <;> cases d <;> cases del <;>
      simp_all [archiveStep]
  · have hname : ∀ (rows : String → Nat) (t : String) (e : ArchEnv),
        entryName (archiveStep rows t e).2 = t := by
      rintro rows t ⟨r, x, j, d, del⟩
      cases r <;> cases x <;> cases j <;> cases d <;> cases del <;>
        simp [archiveStep, entryName]
    intro rows tbls
    induction tbls generalizing rows with
    | nil => rfl
    | cons te rest ih =>
      cases te with
      | mk t e => simp [archive_tables, ih, hname]

/-- Instantiation of `archive_tables_archive_then_purge`: a failing JSON
export leaves the rows untouched and records an error entry. -/
theorem archive_tables_archive_then_purge_witness :
    archiveStep (fun _ => 5) "books" ⟨true, true, false, true, true⟩
      = ((fun _ => 5), ArchEntry.err "books") :=
  archive_tables_archive_then_purge.1 (fun _ => 5) "books"
    ⟨true, true, false, true, true⟩ (Or.inr (Or.inr (Or.inl rfl)))

/-- C4: `get_primary_key` returns the catalog's primary-key column when
the constraint query finds one, and the heuristic default `id` both when
no row comes back and when the block raises; totality of the embedding
reflects that the `try`/`except` makes the Python function return on every
path rather than raise. -/
theorem get_primary_key_heuristic :
    (∀ (c : String) (rest : List String),
        get_primary_key (Except.ok (c :: rest)) = c)
    ∧ get_primary_key (Except.ok []) = "id"
    ∧ (∀ e : String, get_primary_key (Except.error e) = "id") :=
  ⟨fun _ _ => rfl, rfl, fun _ => rfl⟩

theorem findIdColumn_eq (cols : List String) :
    findIdColumn cols = (cols.find? endsWithId).getD "ctid" := by
  induction cols with
  | nil => rfl
  | cons c rest ih =>
    by_cases h : endsWithId c = true
    · simp [findIdColumn, List.find?_cons_of_pos _ h, h]
    · simp [findIdColumn, List.find?_cons_of_neg _ h, h, ih]

/-- C5: the sort column `get_table_data` orders by is the first column (in
ordinal position) whose name ends with `_id` when one exists, otherwise
the first column of the table, and the `ctid` fallback exactly when the
table has no columns. -/
theorem get_table_data_sort_column (cols : List String) :
    (∀ c, cols.find? endsWithId = some c → pick_sort_column cols = c)
    ∧ (cols.find? endsWithId = none →
        ∀ c0 rest, cols = c0 :: rest → pick_sort_column cols = c0)
    ∧ (cols = [] → pick_sort_column cols = "ctid") := by
  refine ⟨?_, ?_, ?_⟩
  · intro c h
    have hc : endsWithId c = true := List.find?_some h
    have hne : (c == "ctid") = false := by
      by_cases h0 : c = "ctid"
      · rw [h0] at hc
        exact absurd hc (by decide)
      · simp [h0]
    simp [pick_sort_column, findIdColumn_eq, h, hne]
  · intro h c0 rest hcols
    subst hcols
    simp [pick_sort_column, findIdColumn_eq, h]
  · intro h
    subst h
    rfl

/-- Instantiation of `get_table_data_sort_column`: among
`["title", "author_id", "name"]` the inferred sort column is the first
`_id`-suffixed one. -/
theorem get_table_data_sort_column_witness :
    pick_sort_column ["title", "author_id", "name"] = "author_id" :=
  (get_table_data_sort_column ["title", "author_id", "name"]).1 "author_id" (by decide)

/-- C6 (counterexample): the claim "every operation opens exactly one
database connection per invocation" fails on `get_record_by_id`: when the
record is found it calls `CRUD.get_table_columns` (crud.py 93) while its
own connection is open, and that helper opens a second connection
(crud.py 29), so the invocation acquires two. -/
theorem one_connection_per_request_counterexample :
    (get_record_by_id_trace true).count ConnEvent.acquire = 2
    ∧ (get_record_by_id_trace true).count ConnEvent.acquire ≠ 1 := by
  decide

/-- C6 (amended): operations are synchronous; the operations built on
`Database.get_connection_context` (`get_tables`, `update_record`,
`delete_record`, `get_table_data`) acquire exactly one connection and
close it before returning, while `get_record_by_id` acquires one
connection plus a second nested one (via `get_table_columns`) when the
record is found. -/
theorem connection_usage_per_operation (found : Bool) :
    ((get_record_by_id_trace found).count ConnEvent.acquire
        = if found then 2 else 1)
    ∧ get_tables_trace = [ConnEvent.acquire, ConnEvent.release]
    ∧ update_record_trace = [ConnEvent.acquire, ConnEvent.release]
    ∧ delete_record_trace = [ConnEvent.acquire, ConnEvent.release]
    ∧ get_table_data_trace = [ConnEvent.acquire, ConnEvent.release]
    ∧ get_table_columns_trace.count ConnEvent.acquire = 1 := by
  cases found <;> exact ⟨by decide, rfl, rfl, rfl, rfl, by decide⟩

/-- C7: `get_table_columns` mirrors the catalog rows one-to-one and in
ordinal-position order: every output entry carries exactly the column
name, data type, default, and nullability computed as the boolean result
of comparing the catalog's `is_nullable` value to `YES`. -/
theorem get_table_columns_mirror (rows : List CatalogColumn) :
    (get_table_columns rows).length = rows.length
    ∧ (∀ i : Nat, (get_table_columns rows).get? i
        = (rows.get? i).map (fun col =>
            { name := col.column_name, type := col.data_type,
              nullable := col.is_nullable == "YES",
              default := col.column_default }))
    ∧ (∀ (i : Nat) (col : CatalogColumn), rows.get? i = some col →
        ((get_table_columns rows).get? i).map ColumnInfo.nullable
          = some (decide (col.is_nullable = "YES"))) := by
  refine ⟨by simp [get_table_columns], ?_, ?_⟩
  · intro i
    simp [get_table_columns, List.get?_map]
  · intro i col h
    have h' : rows[i]? = some col := by
      simpa [List.get?_eq_getElem?] using h
    have hbeq : (col.is_nullable == "YES") = decide (col.is_nullable = "YES") := by
      by_cases hy : col.is_nullable = "YES" <;> simp [hy]
    simp [get_table_columns, List.getElem?_map, h', hbeq]

/-- Instantiation of `get_table_columns_mirror` at a single `NOT NULL`
catalog row. -/
theorem get_table_columns_mirror_witness :
    ((get_table_columns [⟨"book_id", "integer", "NO", none⟩]).get? 0).map
        ColumnInfo.nullable
      = some (decide (("NO" : String) = "YES")) :=
  (get_table_columns_mirror [⟨"book_id", "integer", "NO", none⟩]).2.2 0
    ⟨"book_id", "integer", "NO", none⟩ rfl

/-- C8: `execute_sql` is total over the engine's outcome (the Python
`try`/`except` returns on every path): a result set yields success with
the converted rows, column names, row count and elapsed time while the
transaction is left alone; a rowcount-only statement commits and yields
success; a raised exception rolls back and yields failure carrying the
error message.  `datetime`/`date` cells become their ISO strings. -/
theorem execute_sql_outcomes (elapsed : Nat) :
    (∀ e : String, execute_sql (Except.error e) elapsed
        = ({ success := false, data := none, columns := none, rowcount := none,
             error := some e, elapsed := elapsed }, TxnAction.rollback))
    ∧ (∀ (cols : List String) (rows : List (List PgValue)) (rc : Int),
        execute_sql (Except.ok (ExecOutcome.resultSet cols rows rc)) elapsed
          = ({ success := true,
               data := some (rows.map (fun r => cols.zip (r.map convertValue))),
               columns := some cols, rowcount := some rc, error := none,
               elapsed := elapsed }, TxnAction.noAction))
    ∧ (∀ rc : Int, execute_sql (Except.ok (ExecOutcome.command rc)) elapsed
        = ({ success := true, data := none, columns := none, rowcount := some rc,
             error := none, elapsed := elapsed }, TxnAction.commit))
    ∧ (∀ iso : String, convertValue (PgValue.vdatetime iso) = PgValue.vstr iso
        ∧ convertValue (PgValue.vdate iso) = PgValue.vstr iso) :=
  ⟨fun _ => rfl, fun _ _ _ => rfl, fun _ => rfl, fun _ => ⟨rfl, rfl⟩⟩

/-- C9: for the guarded tables, a positive dependency count makes
`delete_data` return failure carrying the count under the table's
dependency key, without executing any `DELETE`. -/
theorem delete_data_dependency_guard (table : String) (depCount : Nat)
    (condKeys : List String) (ht : table ∈ guardedTables) (hd : 0 < depCount) :
    delete_data table depCount condKeys
      = ({ success := false,
           dependencies := some [(depKey table, depCount)],
           error := some "Невозможно удалить запись из-за наличия зависимых данных" },
         false) := by
  simp [delete_data, ht, hd]

/-- Instantiation of `delete_data_dependency_guard`: a reader with two
active loans cannot be deleted and no `DELETE` runs. -/
theorem delete_data_dependency_guard_witness :
    delete_data "readers" 2 ["reader_id"]
      = ({ success := false,
           dependencies := some [("active_loans", 2)],
           error := some "Невозможно удалить запись из-за наличия зависимых данных" },
         false) :=
  delete_data_dependency_guard "readers" 2 ["reader_id"] (by decide) (by decide)

/-- C10: every column in the SET clause of the `UPDATE` built by
`update_record` differs from the primary-key column and stems from a
`data` item whose value is neither `""` nor `None`; and when every item is
the primary key or empty, the call fails without executing any
`UPDATE`. -/
theorem update_record_set_clause (pkFetch : Option String)
    (data : List (String × PgValue)) :
    (∀ cols, (update_record pkFetch data).2 = some cols →
        ∀ k, k ∈ cols →
          k ≠ pkOf pkFetch
          ∧ ∃ v, (k, v) ∈ data ∧ v ≠ PgValue.vstr "" ∧ v ≠ PgValue.vnull)
    ∧ ((∀ kv, kv ∈ data →
          kv.1 = pkOf pkFetch ∨ kv.2 = PgValue.vstr "" ∨ kv.2 = PgValue.vnull) →
        update_record pkFetch data
          = ({ success := false, error := some "Нет данных для обновления" },
             none)) := by
  constructor
  · intro cols hcols k hk
    by_cases hkept : (data.filter (updatableItem (pkOf pkFetch))).isEmpty = true
    · simp [update_record, hkept] at hcols
    · simp only [update_record, hkept, Bool.false_eq_true, if_false,
        Option.some.injEq] at hcols
      subst hcols
      rcases List.mem_map.mp hk with ⟨kv, hmem, hfst⟩
      rcases List.mem_filter.mp hmem with ⟨hdata, hupd⟩
      obtain ⟨k0, v⟩ := kv
      obtain rfl : k0 = k := hfst
      simp only [updatableItem, Bool.and_eq_true, Bool.not_eq_true',
        beq_eq_false_iff_ne, ne_eq] at hupd
      exact ⟨hupd.1.1, v, hdata, hupd.1.2, hupd.2⟩
  · intro hall
    have hnil : data.filter (updatableItem (pkOf pkFetch)) = [] := by
      rw [List.filter_eq_nil]
      intro kv hkv
      rcases hall kv hkv with h | h | h <;>
        simp [updatableItem, h]
    simp [update_record, hnil]

/-- Instantiation of `update_record_set_clause`: a body holding only the
primary key and an empty string leads to failure with no `UPDATE`. -/
theorem update_record_set_clause_witness :
    update_record (some "book_id")
        [("book_id", PgValue.vint 1), ("title", PgValue.vstr "")]
      = ({ success := false, error := some "Нет данных для обновления" }, none) :=
  (update_record_set_clause (some "book_id")
    [("book_id", PgValue.vint 1), ("title", PgValue.vstr "")]).2 (by decide)
